import Mathlib

/-!
Verification of the SummarizeEmail repository's RAG / summarization core and its
Graph-repository error mapping, shallowly embedded from the Python sources:

  * `app/config.py`            — the `Settings` class (configuration values)
  * `app/services/email.py`    — `_get_text_splitter`, `run_summarization_chain`,
                                 `run_rag_chain`, `astream_rag_chain`, `fetch_email_content`
  * `app/graph/email_repository.py` — `EmailRepository.get_message`, `.list_attachments`
  * `app/exceptions.py`        — the typed `ServiceError` hierarchy

Conventions of the embedding:

  * Python exceptions are modelled with `Except`: a raised exception is `.error e`.
  * Third-party behaviour (LangChain splitters and LLM chains, tiktoken) is kept
    abstract as oracle functions collected in an `LlmEnv` record; LangChain's
    `abatch` contract (outputs are positionally correlated with the inputs,
    regardless of completion order) is reflected by using `List.map`.
  * `sha256(x).hexdigest()` used for cache keys is modelled by the injective
    stand-in `x` itself (only key equality/inequality matters to the programs).
  * The float configuration value `CHUNK_SIZE_RATIO = 0.02` is modelled by the
    exact rational `2 / 100`; for every context-window value appearing in the
    configuration (1048576, 128000, 1000000, 16000) the IEEE-double computation
    `int(ctx * 0.02)` agrees with the exact `ctx * 2 / 100` in `Nat`.
-/

/-- A raised Python exception kind relevant to this code: attribute access on an
object whose class does not define the attribute. -/
inductive PyError where
  | attributeError (attr : String)
deriving DecidableEq, Repr

/-- A Redis-like cache: association list of (key, value, ttl-seconds), most
recent first.  `SET key value EX ttl` and `GET key` from spec.md section 6. -/
abbrev Cache := List (String × String × Nat)

/-- Redis GET: the value stored under `k`, if present. -/
def cacheGet (c : Cache) (k : String) : Option String :=
  (c.find? (fun e => e.1 == k)).map (fun e => e.2.1)

/-- Redis SET ... EX ttl: store `v` under `k` with time-to-live `ttl`. -/
def cacheSet (c : Cache) (k v : String) (ttl : Nat) : Cache :=
  (k, v, ttl) :: c.filter (fun e => !(e.1 == k))

/-- The configuration values of `config.py`'s `Settings` class that the chunk
sizing code reads (config.py lines 86-98).  `CHUNK_SIZE_RATIO` (a float in the
source) is represented exactly as the fraction `ratio_num / ratio_den`. -/
structure Settings where
  RAG_TOKEN_MAX : Nat
  MODEL_CONTEXT_WINDOWS : List (String × Nat)
  ratio_num : Nat
  ratio_den : Nat
  DEFAULT_CHUNK_OVERLAP : Nat
  CACHE_EXPIRATION_SECONDS : Nat
deriving DecidableEq, Repr

/-- The defaults declared in config.py: `RAG_TOKEN_MAX = 16000` (line 87), the
context-window table (lines 91-95), `CHUNK_SIZE_RATIO = 0.02` (line 97),
`DEFAULT_CHUNK_OVERLAP = 200` (line 98), `CACHE_EXPIRATION_SECONDS = 3600`
(line 61). -/
def defaultSettings : Settings :=
  { RAG_TOKEN_MAX := 16000
    MODEL_CONTEXT_WINDOWS :=
      [("gemini-2.5-flash", 1048576), ("gpt-4o-mini", 128000), ("gpt-4.1", 1000000)]
    ratio_num := 2
    ratio_den := 100
    DEFAULT_CHUNK_OVERLAP := 200
    CACHE_EXPIRATION_SECONDS := 3600 }

/-- email.py line 105: `settings.MODEL_CONTEXT_WINDOWS.get(model_name, settings.RAG_TOKEN_MAX)`. -/
def contextWindow (s : Settings) (model_name : String) : Nat :=
  ((s.MODEL_CONTEXT_WINDOWS.lookup model_name).getD s.RAG_TOKEN_MAX)

/-- email.py line 106: `chunk_size = min(8192, int(ctx_window * settings.CHUNK_SIZE_RATIO))`. -/
def chunk_size (s : Settings) (model_name : String) : Nat :=
  min 8192 (contextWindow s model_name * s.ratio_num / s.ratio_den)

/-- email.py line 107: `overlap = min(settings.DEFAULT_CHUNK_OVERLAP, max(32, chunk_size // 10))`. -/
def chunk_overlap (s : Settings) (model_name : String) : Nat :=
  min s.DEFAULT_CHUNK_OVERLAP (max 32 (chunk_size s model_name / 10))

/-- The attribute read `settings.MODEL_TOKENIZERS` (email.py lines 108 and 398).
The `Settings` class in config.py (lines 9-99) declares no field or attribute
named `MODEL_TOKENIZERS` (its tokenisation-related fields are only
`MODEL_CONTEXT_WINDOWS`, `CHUNK_SIZE_RATIO`, `DEFAULT_CHUNK_OVERLAP`,
`RAG_TOKEN_MAX`), and no other code assigns such an attribute; reading an
undefined attribute on a pydantic model raises `AttributeError`.  The intended
value would map model names to tokenizer encodings. -/
def settingsGetTokenizers (_s : Settings) : Except PyError (List (String × String)) :=
  .error (.attributeError "MODEL_TOKENIZERS")

/-- The attribute read `settings.MAP_CACHE_EXPIRATION_SECONDS` (email.py line
386).  Like `MODEL_TOKENIZERS`, no such attribute is declared anywhere on the
`Settings` class, so the read raises `AttributeError`. -/
def settingsGetMapCacheTTL (_s : Settings) : Except PyError Nat :=
  .error (.attributeError "MAP_CACHE_EXPIRATION_SECONDS")

/-- The splitter object built by `_get_text_splitter` (email.py lines 110-134):
either a `RecursiveCharacterTextSplitter` (character based, for sentencepiece
models) or a `TokenTextSplitter` (tiktoken based). -/
inductive Splitter where
  | char (chunk_size chunk_overlap : Nat)
  | token (encoding : String) (chunk_size chunk_overlap : Nat)
deriving DecidableEq, Repr

/-- `_get_text_splitter(model_name)`, email.py lines 103-134.  Computes the
context window, chunk size and overlap (lines 105-107), then reads
`settings.MODEL_TOKENIZERS` (line 108) — which raises `AttributeError` — and
would otherwise build a character or token splitter (lines 110-134). -/
def _get_text_splitter (s : Settings) (model_name : String) : Except PyError Splitter :=
  let cs := chunk_size s model_name
  let ov := chunk_overlap s model_name
  match settingsGetTokenizers s with
  | .error e => .error e
  | .ok tokenizers =>
    let encoding_name := (tokenizers.lookup model_name).getD "cl100k_base"
    if encoding_name == "sentencepiece" then
      .ok (.char (cs * 4) (ov * 4))
    else
      .ok (.token encoding_name cs ov)

/-- Oracles for the third-party behaviour used by the pipelines: the model name
resolved by `_get_model_name`, LangChain splitter behaviour, and the LLM chains
(`prompt | llm | StrOutputParser()`), all deterministic functions. -/
structure LlmEnv where
  model_name : String
  /-- `splitter.split_documents([Document(page_content=text)])` page contents. -/
  splitDocs : Splitter → String → List String
  /-- `splitter.split_text(text)`. -/
  splitText : Splitter → String → List String
  /-- RAG map chain on `{context, question}` (email.py lines 358-362). -/
  ragMap : String → String → String
  /-- RAG reduce chain on `{doc_summaries, question}` (lines 406-410, 438-442). -/
  ragReduce : String → String → String
  /-- `reduce_run.astream(...)` token stream (email.py line 607). -/
  reduceStream : String → String → List String
  /-- summary map chain on `{text}` (email.py lines 296-300). -/
  sumMap : String → String
  /-- summary reduce chain on `{text}` (email.py lines 302-306). -/
  sumReduce : String → String
  /-- `_num_tokens(text, enc_name)` (email.py lines 78-100, third-party tokenizers). -/
  numTokens : String → String → Nat

/-- Python `str.strip()` (whitespace trim) as used in the truthiness filters
`if item["out"].strip()` (email.py lines 389 and 598). -/
def pyStrip (s : String) : String := s.trim

/-- The fixed sentinel answer, email.py lines 392 and 601. -/
def ragSentinel : String := "No relevant information found in the provided documents."

/-- email.py line 366: `cache_key = f"rag_map:{sha256(content+question)}"`,
with the digest modelled by the hashed text itself. -/
def ragMapKey (content question : String) : String := "rag_map:" ++ content ++ question

/-- email.py line 282: `cache_key = f"summary:{sha256(content)}"`. -/
def summaryKey (content : String) : String := "summary:" ++ content

/-- The partition loop of the map stage (email.py lines 364-372): one pass over
`split_docs` appending each chunk's cached output to `cached_outputs` on a
cache hit and the chunk itself to `batch_inputs` on a miss, preserving the
traversal order within each of the two lists. -/
def ragMapSplit (cache : Cache) (question : String) (chunks : List String) :
    List String × List String :=
  chunks.foldl
    (fun acc d =>
      match cacheGet cache (ragMapKey d question) with
      | some v => (acc.1 ++ [v], acc.2)
      | none => (acc.1, acc.2 ++ [d]))
    ([], [])

/-- The map-stage outputs `batch_outputs` assembled by email.py lines 364-388,
or the exception raised on the way.  With no Redis client every chunk is
batched and `abatch` returns the fresh outputs in input order (lines 378-382);
with a Redis client the chunks are partitioned (lines 364-372), the misses are
batched, and the persist loop (lines 384-386) then reads the undefined setting
`MAP_CACHE_EXPIRATION_SECONDS`, raising `AttributeError` before the first
`SET`, whenever there is at least one miss.  Line 388 then assembles
`cached_outputs + fresh_outputs` (all hits first, then the fresh results). -/
def ragMapBatchOutputs (s : Settings) (env : LlmEnv) (question : String)
    (redis : Option Cache) (chunks : List String) : Except PyError (List String) :=
  match redis with
  | none => .ok (chunks.map (fun d => env.ragMap d question))
  | some cache =>
    let p := ragMapSplit cache question chunks
    if p.2.isEmpty then
      .ok (p.1 ++ [])
    else
      let fresh := p.2.map (fun d => env.ragMap d question)
      match settingsGetMapCacheTTL s with
      | .error e => .error e
      | .ok _ttl => .ok (p.1 ++ fresh)

/-- The number of map-stage LLM calls issued by lines 378-382: one per cache
miss (every chunk when no Redis client is supplied). -/
def ragMapLlmCalls (question : String) (redis : Option Cache) (chunks : List String) : Nat :=
  match redis with
  | none => chunks.length
  | some cache => (ragMapSplit cache question chunks).2.length

/-- The ordering guarantee as worded by the specification (spec.md sections 5
and 4.3): each map output is correlated back to its originating chunk, so the
output list is the per-chunk result (cached value on a hit, fresh LLM result on
a miss) in input chunk order.  Stated from the spec for comparison with
`ragMapBatchOutputs`, the embedding of the code. -/
def specMapOutputsChunkOrder (env : LlmEnv) (question : String)
    (redis : Option Cache) (chunks : List String) : Except PyError (List String) :=
  .ok (chunks.map (fun d =>
    match redis with
    | none => env.ragMap d question
    | some cache => (cacheGet cache (ragMapKey d question)).getD (env.ragMap d question)))

/-- One round of the recursive collapse (the body of the while loop, email.py
lines 416-428): adjacent chunks are paired (`range(0, len, 2)`), the last odd
chunk stands alone, and each pair (or lone chunk) is sent through the collapse
chain. -/
def collapseRound (red : String → String) : List String → List String
  | [] => []
  | [c] => [red c]
  | c1 :: c2 :: rest => red (c1 ++ "\n\n---\n\n" ++ c2) :: collapseRound red rest

/-- The inputs handed to the collapse chain during one round (the
`chunk_pair` values of email.py lines 419-422). -/
def collapseRoundInputs : List String → List String
  | [] => []
  | [c] => [c]
  | c1 :: c2 :: rest => (c1 ++ "\n\n---\n\n" ++ c2) :: collapseRoundInputs rest

/-- The while loop `while len(result_chunks) > 1` (email.py lines 415-431),
modelled with explicit fuel: each iteration replaces the chunk list by one
collapse round.  Termination of the Python loop is the statement that enough
fuel makes the result list have at most one element. -/
def collapseLoopFuel (red : String → String) : Nat → List String → List String
  | 0, cs => cs
  | fuel + 1, cs =>
    if cs.length ≤ 1 then cs else collapseLoopFuel red fuel (collapseRound red cs)

/-- The number of while-loop iterations (collapse rounds) executed with the
given fuel. -/
def collapseStepsFuel (red : String → String) : Nat → List String → Nat
  | 0, _ => 0
  | fuel + 1, cs =>
    if cs.length ≤ 1 then 0 else collapseStepsFuel red fuel (collapseRound red cs) + 1

/-- All inputs handed to the collapse chain over the whole loop with the given
fuel (the trace of reduce-stage LLM invocations of email.py lines 424-427). -/
def collapseCallsFuel (red : String → String) : Nat → List String → List String
  | 0, _ => []
  | fuel + 1, cs =>
    if cs.length ≤ 1 then []
    else collapseRoundInputs cs ++ collapseCallsFuel red fuel (collapseRound red cs)

/-- The remainder of `run_rag_chain` after the splitter has been produced
(email.py lines 350-450): chunk the context documents, run the map stage,
filter whitespace-only outputs, return the sentinel when nothing remains,
otherwise read `settings.MODEL_TOKENIZERS` again (line 398 — `AttributeError`),
and in the (hence unreachable) remainder estimate tokens, collapse if over the
limit, and run the final reduce.  Result: (answer or exception, number of LLM
calls issued, final cache state). -/
def ragAfterSplit (s : Settings) (env : LlmEnv) (splitter : Splitter)
    (question : String) (context_docs : List String) (redis : Option Cache) :
    Except PyError String × Nat × Option Cache :=
  let split_docs := context_docs.flatMap (env.splitDocs splitter)
  match ragMapBatchOutputs s env question redis split_docs with
  | .error e => (.error e, ragMapLlmCalls question redis split_docs, redis)
  | .ok batch_outputs =>
    let mapCalls := ragMapLlmCalls question redis split_docs
    let map_results := batch_outputs.filter (fun o => !(pyStrip o == ""))
    if map_results.isEmpty then
      (.ok ragSentinel, mapCalls, redis)
    else
      let combined_results := String.intercalate "\n\n---\n\n" map_results
      match settingsGetTokenizers s with
      | .error e => (.error e, mapCalls, redis)
      | .ok tokenizers =>
        -- dead code (the line-398 attribute read above always raises), kept
        -- faithful to email.py lines 399-450
        let encoding_name := (tokenizers.lookup env.model_name).getD "cl100k_base"
        let estimated_tokens := env.numTokens combined_results encoding_name
        let token_limit := contextWindow s env.model_name
        let red := fun t => env.ragReduce t question
        let collapsed :=
          if token_limit < estimated_tokens then
            let result_chunks := env.splitText splitter combined_results
            ((collapseLoopFuel red result_chunks.length result_chunks).headD
              combined_results,
              (collapseCallsFuel red result_chunks.length result_chunks).length)
          else (combined_results, 0)
        (.ok (env.ragReduce collapsed.1 question), mapCalls + collapsed.2 + 1, redis)

/-- `run_rag_chain(question, context_docs, redis_client)`, email.py lines
328-450.  Builds the splitter for the active model (line 348) — which raises
`AttributeError` on the undefined `MODEL_TOKENIZERS` setting — and otherwise
continues with `ragAfterSplit`.  Result: (answer or exception, number of LLM
calls issued, final cache state). -/
def run_rag_chain (s : Settings) (env : LlmEnv) (question : String)
    (context_docs : List String) (redis : Option Cache) :
    Except PyError String × Nat × Option Cache :=
  match _get_text_splitter s env.model_name with
  | .error e => (.error e, 0, redis)
  | .ok splitter => ragAfterSplit s env splitter question context_docs redis

/-- The cache-miss branch of `run_summarization_chain` (email.py lines
288-325): build the splitter (line 292 — raises `AttributeError`), and
otherwise split, map each chunk, join with blank lines, reduce, store the
summary in the cache with TTL `CACHE_EXPIRATION_SECONDS`, and return
`(summary, False)`.  Result: (value or exception, LLM calls, final cache). -/
def summarizeFresh (s : Settings) (env : LlmEnv) (content : String)
    (redis : Option Cache) : Except PyError (String × Bool) × Nat × Option Cache :=
  match _get_text_splitter s env.model_name with
  | .error e => (.error e, 0, redis)
  | .ok splitter =>
    let split_docs := env.splitDocs splitter content
    let map_outputs := split_docs.map env.sumMap
    let intermediate := String.intercalate "\n\n" map_outputs
    let summary := env.sumReduce intermediate
    let redis' := redis.map (fun c =>
      cacheSet c (summaryKey content) summary s.CACHE_EXPIRATION_SECONDS)
    (.ok (summary, false), split_docs.length + 1, redis')

/-- `run_summarization_chain(content, redis_client)`, email.py lines 274-325.
With a Redis client, a cache hit returns `(cached_summary, True)` without any
LLM call (lines 281-286); otherwise the full chain runs via `summarizeFresh`. -/
def run_summarization_chain (s : Settings) (env : LlmEnv) (content : String)
    (redis : Option Cache) : Except PyError (String × Bool) × Nat × Option Cache :=
  match redis with
  | some cache =>
    match cacheGet cache (summaryKey content) with
    | some cached_summary => (.ok (cached_summary, true), 0, some cache)
    | none => summarizeFresh s env content (some cache)
  | none => summarizeFresh s env content none

/-- `astream_rag_chain(question, context_docs, redis_client)`, email.py lines
582-608, an async generator whose body runs on first iteration.  It builds the
splitter (line 588 — raises `AttributeError`), and otherwise chunks, maps,
filters, yields the sentinel as a single item when no snippet remains (lines
600-602), else streams the reduce output token by token.  Result: (the list of
yielded items or the exception raised, number of LLM calls). -/
def astream_rag_chain (s : Settings) (env : LlmEnv) (question : String)
    (context_docs : List String) (_redis : Option Cache) :
    Except PyError (List String) × Nat :=
  match _get_text_splitter s env.model_name with
  | .error e => (.error e, 0)
  | .ok splitter =>
    let splits := context_docs.flatMap (env.splitDocs splitter)
    let map_batch := splits.map (fun d => env.ragMap d question)
    let snippets := map_batch.filter (fun o => !(pyStrip o == ""))
    if snippets.isEmpty then
      (.ok [ragSentinel], splits.length)
    else
      let merged := String.intercalate "\n\n---\n\n" snippets
      (.ok (env.reduceStream merged question), splits.length + 1)

/-- A single quote character, used in the exception message templates. -/
def quoteChar : String := (Char.ofNat 39).toString

/-- The kind (Python class) of a raised `ServiceError`, exceptions.py lines 1-30. -/
inductive SvcKind where
  | emailNotFound | graphApi | summarization | rag
deriving DecidableEq, Repr

/-- A typed service-layer error: `ServiceError` of exceptions.py, carrying the
message and the external HTTP status code that `main.py`'s
`service_error_handler` returns for it. -/
structure SvcError where
  kind : SvcKind
  message : String
  status_code : Nat
deriving DecidableEq, Repr

/-- `EmailNotFoundError(message_id)`, exceptions.py lines 9-12: message
`"Email with message_id '<id>' not found."`, status 404. -/
def EmailNotFoundError (message_id : String) : SvcError :=
  { kind := .emailNotFound
    message := "Email with message_id " ++ quoteChar ++ message_id ++ quoteChar ++ " not found."
    status_code := 404 }

/-- `GraphApiError(message)`, exceptions.py lines 15-18: status 502. -/
def GraphApiError (message : String) : SvcError :=
  { kind := .graphApi, message := message, status_code := 502 }

/-- An upstream Microsoft Graph HTTP response: status code and body text. -/
structure HttpResponse where
  status : Nat
  body : String
deriving DecidableEq, Repr

/-- The `Email` pydantic model (graph/models.py lines 13-30), reduced to the
fields `get_full_content` exposes: `f"Subject: {subject}\n\n{body.content}"`. -/
structure Email where
  subject : String
  body_content : String
deriving DecidableEq, Repr

/-- `get_full_content` of graph/models.py lines 26-30. -/
def Email.get_full_content (e : Email) : String :=
  "Subject: " ++ e.subject ++ "\n\n" ++ e.body_content

/-- The `Attachment` pydantic model (graph/models.py lines 32-41), reduced to
the `$select`-ed metadata fields fetched by `list_attachments`. -/
structure Attachment where
  id : String
  name : String
  contentType : String
  size : Nat
  isInline : Bool
deriving DecidableEq, Repr

/-- `EmailRepository.get_message(message_id)`, email_repository.py lines 21-56.
`response.raise_for_status()` raises `HTTPError` exactly for statuses 400-599;
a 404 is re-raised as `EmailNotFoundError(message_id)`, any other error status
as `GraphApiError` with the status and body echoed.  Below 400 the body is
parsed into an `Email` (`response.json()` + pydantic validation, abstracted as
the `parse` oracle); a parse failure is caught by the blanket handler (lines
54-56) and re-raised as `GraphApiError(str(e))`. -/
def get_message (parse : String → Except String Email) (resp : HttpResponse)
    (message_id : String) : Except SvcError Email :=
  if 400 ≤ resp.status then
    if resp.status == 404 then
      .error (EmailNotFoundError message_id)
    else
      .error (GraphApiError
        ("Failed to fetch email. Status: " ++ toString resp.status ++
          ", Response: " ++ resp.body))
  else
    match parse resp.body with
    | .ok email => .ok email
    | .error msg => .error (GraphApiError msg)

/-- A failure of `list_attachments`: either a typed `ServiceError` or an
exception that no handler in the method catches (there is no blanket
`except Exception` in `list_attachments`, unlike `get_message`). -/
inductive AttFailure where
  | svc (e : SvcError)
  | uncaught (msg : String)
deriving DecidableEq, Repr

/-- `EmailRepository.list_attachments(message_id)`, email_repository.py lines
125-154.  On an upstream 404 the method logs and returns the empty list (lines
148-153, deliberately: "This could mean message not found, or just no
attachments."); any other error status raises `GraphApiError`; below 400 the
body is parsed into attachment metadata, and a parse failure propagates
uncaught. -/
def list_attachments (parse : String → Except String (List Attachment))
    (resp : HttpResponse) (_message_id : String) :
    Except AttFailure (List Attachment) :=
  if 400 ≤ resp.status then
    if resp.status == 404 then
      .ok []
    else
      .error (.svc (GraphApiError
        ("Failed to fetch attachments. Status: " ++ toString resp.status ++
          ", Response: " ++ resp.body)))
  else
    match parse resp.body with
    | .ok atts => .ok atts
    | .error msg => .error (.uncaught msg)

/-- `fetch_email_content(msg_id, user_id, include_attachments=False)`, email.py
lines 204-238, in real-repository mode (`USE_MOCK_GRAPH_API` false).  Line 217
calls `EmailRepository(user_id=user_id)`, but `EmailRepository.__init__`
(email_repository.py line 18) accepts no `user_id` keyword, so the constructor
raises `TypeError` inside the `try` block before any Graph request is made; the
blanket handler at lines 235-238 re-raises every exception as
`EmailNotFoundError(f"Email not found or could not be processed: {msg_id}")`.
The Graph response therefore never influences the outcome. -/
def fetch_email_content (msg_id _user_id : String) : Except SvcError String :=
  .error (EmailNotFoundError ("Email not found or could not be processed: " ++ msg_id))

/-- Concrete oracle environment used by witnesses and counterexamples. -/
def oracleEnv : LlmEnv :=
  { model_name := "gpt-4o-mini"
    splitDocs := fun _ t => [t]
    splitText := fun _ t => [t]
    ragMap := fun c _ => "fresh:" ++ c
    ragReduce := fun t _ => t
    reduceStream := fun t _ => [t]
    sumMap := fun t => t
    sumReduce := fun t => t
    numTokens := fun _ _ => 0 }

/-- A cache holding a map-stage entry for chunk "b" and question "q" only. -/
def cacheB : Cache := [(ragMapKey "b" "q", "B", 60)]

/-- A cache holding map-stage entries for both chunks "a" and "b". -/
def cacheAB : Cache := [(ragMapKey "a" "q", "A", 60), (ragMapKey "b" "q", "B", 60)]

/-- A parse oracle that always validates, echoing the body. -/
def parseOk : String → Except String Email :=
  fun b => .ok { subject := "s", body_content := b }

/-- A parse oracle that always fails (malformed body). -/
def parseBad : String → Except String Email := fun _ => .error "bad json"

/-- A parse oracle for attachment lists that always validates. -/
def parseAttOk : String → Except String (List Attachment) := fun _ => .ok []

/-- A pathological configuration: unknown models fall back to a zero-token
context window, making the computed chunk size zero. -/
def zeroSettings : Settings := { defaultSettings with RAG_TOKEN_MAX := 0 }

/- ------------------------------------------------------------------ -/
/- Helper lemmas                                                      -/
/- ------------------------------------------------------------------ -/

theorem clog2_le_zero {n : Nat} (h : Nat.clog 2 n ≤ 0) : n ≤ 1 := by
  by_contra h2
  have : 0 < Nat.clog 2 n := Nat.clog_pos (by norm_num) (by omega)
  omega

theorem clog2_rec {n : Nat} (h : 2 ≤ n) :
    Nat.clog 2 n = Nat.clog 2 ((n + 1) / 2) + 1 := by
  rw [Nat.clog_of_two_le (by norm_num) h]
  norm_num

theorem collapseRound_length (red : String → String) :
    ∀ cs : List String, (collapseRound red cs).length = (cs.length + 1) / 2
  | [] => rfl
  | [_] => by simp [collapseRound]
  | _ :: _ :: rest => by
      simp only [collapseRound, List.length_cons, collapseRound_length red rest]
      omega

theorem collapseRoundInputs_ne_nil {cs : List String} (h : 2 ≤ cs.length) :
    collapseRoundInputs cs ≠ [] := by
  match cs with
  | c1 :: c2 :: rest => simp [collapseRoundInputs]

theorem collapseLoopFuel_length (red : String → String) :
    ∀ (fuel : Nat) (cs : List String), Nat.clog 2 cs.length ≤ fuel →
      (collapseLoopFuel red fuel cs).length ≤ 1
  | 0, cs, h => by
      simp only [collapseLoopFuel]
      exact clog2_le_zero h
  | fuel + 1, cs, h => by
      by_cases hc : cs.length ≤ 1
      · simp only [collapseLoopFuel, if_pos hc]
        exact hc
      · simp only [collapseLoopFuel, if_neg hc]
        apply collapseLoopFuel_length red fuel
        rw [collapseRound_length]
        have hrec := clog2_rec (n := cs.length) (by omega)
        omega

theorem collapseStepsFuel_eq (red : String → String) :
    ∀ (fuel : Nat) (cs : List String), Nat.clog 2 cs.length ≤ fuel →
      collapseStepsFuel red fuel cs = Nat.clog 2 cs.length
  | 0, cs, h => by
      have h1 := clog2_le_zero h
      simp [collapseStepsFuel, Nat.clog_of_right_le_one h1]
  | fuel + 1, cs, h => by
      by_cases hc : cs.length ≤ 1
      · simp [collapseStepsFuel, hc, Nat.clog_of_right_le_one hc]
      · have h2 : 2 ≤ cs.length := by omega
        have hrec := clog2_rec h2
        simp only [collapseStepsFuel, if_neg hc]
        rw [collapseStepsFuel_eq red fuel (collapseRound red cs)
            (by rw [collapseRound_length]; omega)]
        rw [collapseRound_length]
        omega

theorem collapseCallsFuel_nil_iff (red : String → String) (fuel : Nat)
    (cs : List String) (h : Nat.clog 2 cs.length ≤ fuel) :
    (collapseCallsFuel red fuel cs = [] ↔ cs.length ≤ 1) := by
  constructor
  · intro hnil
    by_contra hc
    have h2 : 2 ≤ cs.length := by omega
    have hpos : 0 < Nat.clog 2 cs.length := Nat.clog_pos (by norm_num) h2
    match fuel, h with
    | fuel + 1, _ =>
      simp only [collapseCallsFuel, if_neg hc] at hnil
      exact collapseRoundInputs_ne_nil h2 (List.append_eq_nil.mp hnil).1
    | 0, h => omega
  · intro hc
    match fuel with
    | 0 => rfl
    | fuel + 1 => simp [collapseCallsFuel, hc]

theorem ragMapSplit_foldl (cache : Cache) (q : String) :
    ∀ (chunks : List String) (acc : List String × List String),
      chunks.foldl
        (fun acc d =>
          match cacheGet cache (ragMapKey d q) with
          | some v => (acc.1 ++ [v], acc.2)
          | none => (acc.1, acc.2 ++ [d])) acc =
      (acc.1 ++ chunks.filterMap (fun d => cacheGet cache (ragMapKey d q)),
       acc.2 ++ chunks.filter (fun d => (cacheGet cache (ragMapKey d q)).isNone))
  | [], acc => by simp
  | d :: rest, acc => by
      rw [List.foldl_cons]
      cases h : cacheGet cache (ragMapKey d q) with
      | some v =>
        simp only [h]
        rw [ragMapSplit_foldl cache q rest]
        simp [List.filterMap_cons, List.filter_cons, h]
      | none =>
        simp only [h]
        rw [ragMapSplit_foldl cache q rest]
        simp [List.filterMap_cons, List.filter_cons, h]

theorem ragMapSplit_eq (cache : Cache) (q : String) (chunks : List String) :
    ragMapSplit cache q chunks =
      (chunks.filterMap (fun d => cacheGet cache (ragMapKey d q)),
       chunks.filter (fun d => (cacheGet cache (ragMapKey d q)).isNone)) := by
  unfold ragMapSplit
  rw [ragMapSplit_foldl]
  simp

theorem filterMap_eq_map_getD {α β : Type} (f : α → Option β) (dflt : α → β) :
    ∀ l : List α, (∀ d ∈ l, (f d).isSome) →
      l.filterMap f = l.map (fun d => (f d).getD (dflt d))
  | [], _ => rfl
  | a :: t, h => by
      have ha := h a (List.mem_cons_self a t)
      cases hfa : f a with
      | none => rw [hfa] at ha; simp at ha
      | some b =>
        rw [List.filterMap_cons, hfa, List.map_cons,
          filterMap_eq_map_getD f dflt t (fun d hd => h d (List.mem_cons_of_mem a hd))]
        simp [hfa]

/- ------------------------------------------------------------------ -/
/- Claims                                                             -/
/- ------------------------------------------------------------------ -/

/-- Claim C2: the recursive pairwise collapse of `run_rag_chain` (the while
loop of email.py lines 415-431, embedded as `collapseLoopFuel`) terminates:
with any fuel budget of at least `ceil(log2 n)` iterations the loop has exited
(at most one chunk remains), it executes exactly `ceil(log2 n)` rounds
(`Nat.clog 2 n`), each round takes a chunk count `k` to `ceil(k / 2)` (the
last odd chunk standing alone), and the collapse chain is invoked at least
once exactly when there are two or more chunks — in particular it is never
invoked on an empty excerpt set. -/
theorem claim_C2 (red : String → String) (cs : List String) (fuel : Nat)
    (hfuel : Nat.clog 2 cs.length ≤ fuel) :
    (collapseLoopFuel red fuel cs).length ≤ 1 ∧
    collapseStepsFuel red fuel cs = Nat.clog 2 cs.length ∧
    (collapseRound red cs).length = (cs.length + 1) / 2 ∧
    (collapseCallsFuel red fuel cs = [] ↔ cs.length ≤ 1) :=
  ⟨collapseLoopFuel_length red fuel cs hfuel,
   collapseStepsFuel_eq red fuel cs hfuel,
   collapseRound_length red cs,
   collapseCallsFuel_nil_iff red fuel cs hfuel⟩

/-- Witness for C2 at three chunks and fuel 2 = ceil(log2 3). -/
theorem claim_C2_witness :
    Nat.clog 2 (List.length ["a", "b", "c"]) ≤ 2 ∧
    ((collapseLoopFuel (fun t => t) 2 ["a", "b", "c"]).length ≤ 1 ∧
      collapseStepsFuel (fun t => t) 2 ["a", "b", "c"] =
        Nat.clog 2 (List.length ["a", "b", "c"]) ∧
      (collapseRound (fun t => t) ["a", "b", "c"]).length =
        (List.length ["a", "b", "c"] + 1) / 2 ∧
      (collapseCallsFuel (fun t => t) 2 ["a", "b", "c"] = [] ↔
        List.length ["a", "b", "c"] ≤ 1)) := by
  have hlen : Nat.clog 2 (List.length ["a", "b", "c"]) ≤ 2 := by
    simp [Nat.clog_of_two_le]
  exact ⟨hlen, claim_C2 (fun t => t) ["a", "b", "c"] 2 hlen⟩

/-- Claim C3 (code bug): the claim states that `run_rag_chain` with zero
retrieved documents returns the sentinel string successfully with no
reduce-stage LLM call.  The code instead raises `AttributeError` at
`_get_text_splitter` (email.py line 348 via line 108: `settings.MODEL_TOKENIZERS`
is undefined) before the sentinel check at lines 391-392 can run: for every
configuration, environment, question and cache state, the call with zero
documents yields the `AttributeError`, zero LLM calls, and an untouched
cache. -/
theorem claim_C3 (s : Settings) (env : LlmEnv) (q : String) (redis : Option Cache) :
    run_rag_chain s env q [] redis =
      (.error (.attributeError "MODEL_TOKENIZERS"), 0, redis) := by
  simp [run_rag_chain, _get_text_splitter, settingsGetTokenizers]

/-- Claim C4: for every model name (the three configured context-window table
entries as well as unknown names, which fall back to `RAG_TOKEN_MAX = 16000`),
the splitter parameters of email.py lines 105-107 satisfy
`0 < chunk_size ≤ 8192`, `overlap < chunk_size`, and
`chunk_size ≤ context_window`. -/
theorem claim_C4 (model_name : String) :
    0 < chunk_size defaultSettings model_name ∧
    chunk_size defaultSettings model_name ≤ 8192 ∧
    chunk_overlap defaultSettings model_name < chunk_size defaultSettings model_name ∧
    chunk_size defaultSettings model_name ≤ contextWindow defaultSettings model_name := by
  have hcw : contextWindow defaultSettings model_name = 1048576 ∨
      contextWindow defaultSettings model_name = 128000 ∨
      contextWindow defaultSettings model_name = 1000000 ∨
      contextWindow defaultSettings model_name = 16000 := by
    unfold contextWindow defaultSettings
    by_cases h1 : model_name = "gemini-2.5-flash"
    · simp [List.lookup, beq_iff_eq.mpr h1]
    · by_cases h2 : model_name = "gpt-4o-mini"
      · simp [List.lookup, beq_eq_false_iff_ne.mpr h1, beq_iff_eq.mpr h2]
      · by_cases h3 : model_name = "gpt-4.1"
        · simp [List.lookup, beq_eq_false_iff_ne.mpr h1,
            beq_eq_false_iff_ne.mpr h2, beq_iff_eq.mpr h3]
        · simp [List.lookup, beq_eq_false_iff_ne.mpr h1,
            beq_eq_false_iff_ne.mpr h2, beq_eq_false_iff_ne.mpr h3]
  unfold chunk_overlap chunk_size
  rcases hcw with h | h | h | h <;> rw [h] <;> simp [defaultSettings]

/-- Claim C5: `_get_text_splitter` unconditionally reads
`settings.MODEL_TOKENIZERS` (email.py line 108), which the `Settings` class
never defines, so for every configuration and model name the splitter
construction raises `AttributeError`; consequently every invocation of
`run_rag_chain` and every cache-miss invocation of `run_summarization_chain`
(with or without a Redis client) fails with that `AttributeError` before
performing any chunking or LLM call and leaves the cache untouched. -/
theorem claim_C5 (s : Settings) :
    (∀ m : String,
        _get_text_splitter s m = .error (.attributeError "MODEL_TOKENIZERS")) ∧
    (∀ (env : LlmEnv) (q : String) (docs : List String) (redis : Option Cache),
        run_rag_chain s env q docs redis =
          (.error (.attributeError "MODEL_TOKENIZERS"), 0, redis)) ∧
    (∀ (env : LlmEnv) (content : String) (cache : Cache),
        cacheGet cache (summaryKey content) = none →
        run_summarization_chain s env content (some cache) =
          (.error (.attributeError "MODEL_TOKENIZERS"), 0, some cache)) ∧
    (∀ (env : LlmEnv) (content : String),
        run_summarization_chain s env content none =
          (.error (.attributeError "MODEL_TOKENIZERS"), 0, none)) := by
  refine ⟨fun m => ?_, fun env q docs redis => ?_, fun env content cache h => ?_,
    fun env content => ?_⟩
  · simp [_get_text_splitter, settingsGetTokenizers]
  · simp [run_rag_chain, _get_text_splitter, settingsGetTokenizers]
  · simp [run_summarization_chain, h, summarizeFresh, _get_text_splitter,
      settingsGetTokenizers]
  · simp [run_summarization_chain, summarizeFresh, _get_text_splitter,
      settingsGetTokenizers]

/-- Witness for C5: the splitter fails for a configured model name, and a
summarization call on an empty (clean) cache fails with the same
`AttributeError` having made no LLM call and no cache write. -/
theorem claim_C5_witness :
    _get_text_splitter defaultSettings "gpt-4o-mini" =
      .error (.attributeError "MODEL_TOKENIZERS") ∧
    run_summarization_chain defaultSettings oracleEnv "Hello" (some []) =
      (.error (.attributeError "MODEL_TOKENIZERS"), 0, some []) :=
  ⟨(claim_C5 defaultSettings).1 "gpt-4o-mini",
   (claim_C5 defaultSettings).2.2.1 oracleEnv "Hello" [] rfl⟩

/-- Claim C6 (code bug): the claim states the cache-miss/cache-hit idempotence
scenario for `run_summarization_chain`.  The code instead fails on the first
(clean-cache) call: the miss path reaches `_get_text_splitter` (email.py line
292), which raises `AttributeError` on the undefined `MODEL_TOKENIZERS`
setting, before any LLM call; nothing is stored, so a second call is another
miss and fails identically.  Evaluated at the scenario's input: content
"Hello world" with an initially clean cache yields the `AttributeError`, zero
LLM calls and an unchanged cache. -/
theorem claim_C6 (s : Settings) (env : LlmEnv) :
    run_summarization_chain s env "Hello world" (some []) =
      (.error (.attributeError "MODEL_TOKENIZERS"), 0, some []) := by
  simp [run_summarization_chain, cacheGet, summarizeFresh, _get_text_splitter,
    settingsGetTokenizers]

/-- Claim C8: when the configured context window and chunk ratio make the
computed `chunk_size` zero, `_get_text_splitter` raises rather than returning
a splitter.  (It does so for every configuration: the construction fails on
the undefined `MODEL_TOKENIZERS` configuration attribute at email.py line 108
— after computing the chunk parameters, before building any splitter — so a
degenerate splitter is never returned; there is no explicit chunk-size
validation in the code.) -/
theorem claim_C8 (s : Settings) (m : String) (_h : chunk_size s m = 0) :
    ∃ e : PyError, _get_text_splitter s m = .error e :=
  ⟨.attributeError "MODEL_TOKENIZERS", by
    simp [_get_text_splitter, settingsGetTokenizers]⟩

/-- Witness for C8: with `RAG_TOKEN_MAX = 0` an unknown model name gives
`chunk_size = min(8192, int(0 * 0.02)) = 0`, and the splitter construction
errors. -/
theorem claim_C8_witness :
    chunk_size zeroSettings "unknown-model" = 0 ∧
    ∃ e : PyError, _get_text_splitter zeroSettings "unknown-model" = .error e :=
  ⟨by decide, claim_C8 zeroSettings "unknown-model" (by decide)⟩

/-- Claim C9 (code bug): the claim states that when the streaming variant's
map stage produces no non-whitespace extraction (in particular for zero
context documents), `astream_rag_chain` yields the sentinel string exactly
once and terminates without a reduce-stage call.  The generator instead
raises `AttributeError` on first iteration: its body reaches
`_get_text_splitter` (email.py line 588 via line 108) before the map stage,
so nothing is ever yielded. -/
theorem claim_C9 (s : Settings) (env : LlmEnv) (q : String) (redis : Option Cache) :
    astream_rag_chain s env q [] redis =
      (.error (.attributeError "MODEL_TOKENIZERS"), 0) := by
  simp [astream_rag_chain, _get_text_splitter, settingsGetTokenizers]

/-- Claim C10: when the Graph attachments-list endpoint returns 404,
`EmailRepository.list_attachments` returns the empty list as a successful
result (email_repository.py lines 148-153) and raises no typed not-found
error, for every parse oracle, response body and message id. -/
theorem claim_C10 (parse : String → Except String (List Attachment))
    (resp : HttpResponse) (mid : String) (h : resp.status = 404) :
    list_attachments parse resp mid = .ok [] := by
  simp [list_attachments, h]

/-- Witness for C10 at a concrete 404 response. -/
theorem claim_C10_witness :
    list_attachments parseAttOk { status := 404, body := "" } "m1" = .ok [] :=
  claim_C10 parseAttOk { status := 404, body := "" } "m1" rfl

/-- Claim C1, amended: the map-stage outputs of `run_rag_chain` (email.py
lines 364-389) appear in input chunk order in the two cases that complete:
with no Redis client the batch returns the fresh results positionally (chunk
order), and with a Redis client under which every chunk is a cache hit the
assembled outputs are the cached values in chunk order — in both cases equal
to the spec's per-chunk correlated output `specMapOutputsChunkOrder`.  But
whenever at least one chunk misses a supplied cache, the persist step (line
386) raises `AttributeError` on the undefined `MAP_CACHE_EXPIRATION_SECONDS`
setting after the map LLM calls and before `batch_outputs` is assembled, so
no reduce input is formed at all; the original claim's "for every cache
state" therefore fails. -/
theorem claim_C1 (s : Settings) (env : LlmEnv) (q : String) (chunks : List String) :
    ragMapBatchOutputs s env q none chunks = specMapOutputsChunkOrder env q none chunks ∧
    (∀ cache : Cache, (∀ d ∈ chunks, (cacheGet cache (ragMapKey d q)).isSome) →
        ragMapBatchOutputs s env q (some cache) chunks =
          specMapOutputsChunkOrder env q (some cache) chunks) ∧
    (∀ cache : Cache, (∃ d ∈ chunks, cacheGet cache (ragMapKey d q) = none) →
        ragMapBatchOutputs s env q (some cache) chunks =
          .error (.attributeError "MAP_CACHE_EXPIRATION_SECONDS")) := by
  refine ⟨rfl, fun cache hall => ?_, fun cache hmiss => ?_⟩
  · have hfil : chunks.filter (fun d => (cacheGet cache (ragMapKey d q)).isNone) = [] := by
      rw [List.filter_eq_nil_iff]
      intro d hd
      have hs := hall d hd
      rw [Option.isNone_iff_eq_none]
      intro hnone
      rw [hnone] at hs
      simp at hs
    simp only [ragMapBatchOutputs, ragMapSplit_eq, hfil, List.isEmpty_nil,
      specMapOutputsChunkOrder, List.append_nil]
    rw [filterMap_eq_map_getD (fun d => cacheGet cache (ragMapKey d q))
      (fun d => env.ragMap d q) chunks hall]
    simp
  · obtain ⟨d, hd, hnone⟩ := hmiss
    have hfil : chunks.filter (fun d => (cacheGet cache (ragMapKey d q)).isNone) ≠ [] := by
      apply List.ne_nil_of_mem (a := d)
      rw [List.mem_filter]
      exact ⟨hd, by simp [hnone]⟩
    simp only [ragMapBatchOutputs, ragMapSplit_eq]
    rw [if_neg (by simpa [List.isEmpty_iff] using hfil)]
    simp [settingsGetMapCacheTTL]

/-- Witness for C1 (amended): an all-hit cache completes in chunk order; one
miss aborts with the `AttributeError`. -/
theorem claim_C1_witness :
    ragMapBatchOutputs defaultSettings oracleEnv "q" (some cacheAB) ["a", "b"] =
      specMapOutputsChunkOrder oracleEnv "q" (some cacheAB) ["a", "b"] ∧
    ragMapBatchOutputs defaultSettings oracleEnv "q" (some cacheB) ["a", "b"] =
      .error (.attributeError "MAP_CACHE_EXPIRATION_SECONDS") :=
  ⟨(claim_C1 defaultSettings oracleEnv "q" ["a", "b"]).2.1 cacheAB (by decide),
   (claim_C1 defaultSettings oracleEnv "q" ["a", "b"]).2.2 cacheB
     ⟨"a", by decide, by decide⟩⟩

/-- Counterexample to C1 as stated: with chunks ["a", "b"] and a cache state
holding an entry for chunk "b" only, the code's map stage does not produce
the chunk-order-correlated outputs the spec asserts (it raises
`AttributeError` at the persist step before assembling any reduce input),
while the spec-side per-chunk correlation yields `["fresh:a", "B"]`. -/
theorem claim_C1_counterexample :
    ragMapBatchOutputs defaultSettings oracleEnv "q" (some cacheB) ["a", "b"] =
      .error (.attributeError "MAP_CACHE_EXPIRATION_SECONDS") ∧
    specMapOutputsChunkOrder oracleEnv "q" (some cacheB) ["a", "b"] =
      .ok ["fresh:a", "B"] ∧
    ragMapBatchOutputs defaultSettings oracleEnv "q" (some cacheB) ["a", "b"] ≠
      specMapOutputsChunkOrder oracleEnv "q" (some cacheB) ["a", "b"] := by
  have h1 : ragMapBatchOutputs defaultSettings oracleEnv "q" (some cacheB) ["a", "b"] =
      .error (.attributeError "MAP_CACHE_EXPIRATION_SECONDS") := rfl
  have h2 : specMapOutputsChunkOrder oracleEnv "q" (some cacheB) ["a", "b"] =
      .ok ["fresh:a", "B"] := rfl
  refine ⟨h1, h2, ?_⟩
  rw [h1, h2]
  exact fun h => Except.noConfusion h

/-- Claim C7, amended: at the repository boundary (`EmailRepository.get_message`),
an upstream 404 raises the typed not-found error (external status 404, message
containing the requested message id), any other upstream error status
(400-599, the statuses `raise_for_status` raises for) raises the typed
upstream error (external status 502), and below 400 no not-found error can
arise (any parse failure becomes the 502-typed upstream error).  These typed
errors do NOT propagate through the content-fetching service layer:
`fetch_email_content` passes an unexpected `user_id` keyword to the
`EmailRepository` constructor and its blanket handler re-raises every failure
as the not-found error, so its external status is 404 (with the id in the
message) for every message id — never 502. -/
theorem claim_C7 :
    (∀ (parse : String → Except String Email) (resp : HttpResponse) (mid : String),
        resp.status = 404 →
          get_message parse resp mid = .error (EmailNotFoundError mid) ∧
          (EmailNotFoundError mid).status_code = 404 ∧
          ∃ pre post, (EmailNotFoundError mid).message = pre ++ mid ++ post) ∧
    (∀ (parse : String → Except String Email) (resp : HttpResponse) (mid : String),
        400 ≤ resp.status → resp.status ≠ 404 →
          ∃ msg, get_message parse resp mid = .error (GraphApiError msg) ∧
            (GraphApiError msg).status_code = 502) ∧
    (∀ (parse : String → Except String Email) (resp : HttpResponse) (mid : String)
        (e : SvcError), resp.status < 400 →
          get_message parse resp mid = .error e → e.kind = .graphApi) ∧
    (∀ mid uid : String,
        fetch_email_content mid uid =
          .error (EmailNotFoundError ("Email not found or could not be processed: " ++ mid)) ∧
        (EmailNotFoundError ("Email not found or could not be processed: " ++ mid)).status_code
          = 404 ∧
        ∃ pre post,
          (EmailNotFoundError ("Email not found or could not be processed: " ++ mid)).message
            = pre ++ mid ++ post) := by
  refine ⟨fun parse resp mid h => ?_, fun parse resp mid h4 hne => ?_,
    fun parse resp mid e hlt heq => ?_, fun mid uid => ?_⟩
  · refine ⟨by simp [get_message, h], rfl,
      "Email with message_id " ++ quoteChar, quoteChar ++ " not found.", ?_⟩
    simp [EmailNotFoundError, String.append_assoc]
  · refine ⟨"Failed to fetch email. Status: " ++ toString resp.status ++
      ", Response: " ++ resp.body, ?_, rfl⟩
    have hne' : (resp.status == 404) = false := by
      simp [hne]
    simp [get_message, if_pos h4, hne']
  · rw [get_message, if_neg (by omega)] at heq
    cases hp : parse resp.body with
    | ok email => rw [hp] at heq; exact Except.noConfusion heq
    | error msg =>
      rw [hp] at heq
      have : GraphApiError msg = e := by
        injection heq
      rw [← this]
      rfl
  · refine ⟨rfl, rfl,
      "Email with message_id " ++ quoteChar ++ "Email not found or could not be processed: ",
      quoteChar ++ " not found.", ?_⟩
    simp [EmailNotFoundError, String.append_assoc]

/-- Witness for C7 (amended) at concrete responses: upstream 404, upstream
500, a 200 response with a malformed body, and a concrete fetch. -/
theorem claim_C7_witness :
    (get_message parseOk { status := 404, body := "" } "m1" =
        .error (EmailNotFoundError "m1") ∧
      (EmailNotFoundError "m1").status_code = 404 ∧
      ∃ pre post, (EmailNotFoundError "m1").message = pre ++ "m1" ++ post) ∧
    (∃ msg, get_message parseOk { status := 500, body := "boom" } "m1" =
        .error (GraphApiError msg) ∧ (GraphApiError msg).status_code = 502) ∧
    (GraphApiError "bad json").kind = .graphApi ∧
    (fetch_email_content "m1" "u1" =
        .error (EmailNotFoundError ("Email not found or could not be processed: " ++ "m1")) ∧
      (EmailNotFoundError ("Email not found or could not be processed: " ++ "m1")).status_code
        = 404 ∧
      ∃ pre post,
        (EmailNotFoundError ("Email not found or could not be processed: " ++ "m1")).message
          = pre ++ "m1" ++ post) :=
  ⟨claim_C7.1 parseOk { status := 404, body := "" } "m1" rfl,
   claim_C7.2.1 parseOk { status := 500, body := "boom" } "m1" (by norm_num) (by norm_num),
   claim_C7.2.2.1 parseBad { status := 200, body := "nonsense" } "m1"
     (GraphApiError "bad json") (by norm_num) rfl,
   claim_C7.2.2.2 "m1" "u1"⟩

/-- Counterexample to C7 as stated: the claim asserts the typed errors
propagate with their status codes (404/502) through the content-fetching
service layer to the external response.  For an upstream 500 the repository
does raise the 502-typed `GraphApiError`, but `fetch_email_content` surfaces
external status 404 (the not-found type), not 502 — and independently a 302
response (non-2xx) whose body parses is returned as success by the
repository, not as the 502-typed error. -/
theorem claim_C7_counterexample :
    get_message parseOk { status := 500, body := "boom" } "m1" =
      .error (GraphApiError "Failed to fetch email. Status: 500, Response: boom") ∧
    (GraphApiError "Failed to fetch email. Status: 500, Response: boom").status_code = 502 ∧
    fetch_email_content "m1" "u1" =
      .error (EmailNotFoundError "Email not found or could not be processed: m1") ∧
    (EmailNotFoundError "Email not found or could not be processed: m1").status_code = 404 ∧
    (404 : Nat) ≠ 502 ∧
    get_message parseOk { status := 302, body := "r" } "m1" =
      .ok { subject := "s", body_content := "r" } := by
  refine ⟨rfl, rfl, rfl, rfl, by norm_num, rfl⟩
